import Mathlib

/-!
Verification of the safe-recovery-service-sdk client library.

The SDK is a stateless client over an external recovery authority (HTTP) and
a ledger (RPC).  Effectful collaborators (the transport round trip, the
on-chain nonce read, randomness, the wall clock) are modelled as explicit
parameters of the embedded functions; TypeScript exceptions are modelled with
`Except`, and `bigint` values with `Nat`/`Int` (they are only ever chain ids,
byte values and uint256 recovery nonces in this code base).
-/

namespace SafeRecoverySdk

/-- Error codes from `src/errors.ts` (`BasicErrorCode`), including the ten
HTTP-derived codes of `HttpErrorCodeDict`. -/
inductive BasicErrorCode where
  | UNKNOWN_ERROR
  | TIMEOUT
  | SIWE_ERROR
  | BAD_DATA
  | HTTP_BAD_REQUEST
  | HTTP_UNAUTHORIZED
  | HTTP_FORBIDDEN
  | HTTP_NOT_FOUND
  | HTTP_CONFLICT
  | HTTP_TOO_MANY_REQUESTS
  | HTTP_INTERNAL_ERROR
  | HTTP_BAD_GATEWAY
  | HTTP_SERVICE_UNAVAILABLE
  | HTTP_GATEWAY_TIMEOUT
deriving DecidableEq, Repr

/-- `SafeRecoveryServiceSdkError` from `src/errors.ts`: a typed error carrying
a stable machine-readable `code` and a human-readable `message`.  The
`cause`/`context`/`errno` diagnostic metadata of the class is not modelled. -/
structure SafeRecoveryServiceSdkError where
  code : BasicErrorCode
  message : String
deriving DecidableEq, Repr

/-- Status of a recovery request (`RecoveryByGuardianRequest.status`). -/
inductive RecoveryStatus where
  | PENDING
  | EXECUTED
  | FINALIZED
deriving DecidableEq, Repr

/-- `executeData` / `finalizeData` of a `RecoveryByGuardianRequest`:
transaction reference plus sponsorship flag. -/
structure RecoveryTransactionData where
  sponsored : Bool
  transactionHash : Option String
deriving DecidableEq, Repr

/-- `RecoveryByGuardianRequest` from `src/recoveryByGuardian.ts`.  The
`nonce` field is the account's uint256 on-chain recovery nonce at creation
time, hence a `Nat`. -/
structure RecoveryByGuardianRequest where
  id : String
  emoji : String
  account : String
  newOwners : List String
  newThreshold : Nat
  chainId : Nat
  nonce : Nat
  signatures : List String
  executeData : RecoveryTransactionData
  finalizeData : RecoveryTransactionData
  status : RecoveryStatus
  discoverable : Bool
  createdAt : String
  updatedAt : String
deriving DecidableEq, Repr

/-- The behaviour of `this.getRecoveryRequests` (transport round trip to
`/v1/recoveries/fetchByAddress` plus parsing), abstracted as a function from
the queried recovery nonce to the parsed reply. -/
abbrev FetchByNonce :=
  Nat → Except SafeRecoveryServiceSdkError (List RecoveryByGuardianRequest)

/-- The result of `socialRecoveryModule.nonce(rpcNode, accountAddress)`: the
account's current on-chain recovery nonce, or the message of the error the
RPC read threw. -/
abbrev NonceReadResult := Except String Nat

namespace RecoveryByGuardianService

/-- `RecoveryByGuardianService.getRecoveryRequestsForLatestNonce` from
`recoveryByGuardian.ts`: reads the account's current recovery nonce, returns
`[]` when the nonce is `0` and a non-PENDING status is asked for, otherwise
queries the stored requests at the nonce itself (PENDING) or at the nonce
minus one (EXECUTED/FINALIZED) and keeps exactly the requests whose status
equals the requested one, in the fetched order.  A failing nonce read is
wrapped as an `UNKNOWN_ERROR`. -/
def getRecoveryRequestsForLatestNonce
    (nonceResult : NonceReadResult) (fetchByNonce : FetchByNonce)
    (status : RecoveryStatus) :
    Except SafeRecoveryServiceSdkError (List RecoveryByGuardianRequest) :=
  match nonceResult with
  | .error _ =>
      .error { code := .UNKNOWN_ERROR, message := "failed fetching nonce" }
  | .ok recoveryNonce =>
      if recoveryNonce == 0 && !(status == .PENDING) then
        .ok []
      else
        let recoveryNonce :=
          if !(status == .PENDING) then recoveryNonce - 1 else recoveryNonce
        match fetchByNonce recoveryNonce with
        | .error e => .error e
        | .ok result => .ok (result.filter (fun r => r.status == status))

/-- `getPendingRecoveryRequestsForLatestNonce`. -/
def getPendingRecoveryRequestsForLatestNonce
    (nonceResult : NonceReadResult) (fetchByNonce : FetchByNonce) :
    Except SafeRecoveryServiceSdkError (List RecoveryByGuardianRequest) :=
  getRecoveryRequestsForLatestNonce nonceResult fetchByNonce .PENDING

/-- `getExecutedRecoveryRequestForLatestNonce`: `null` when no EXECUTED
request is found for the latest relevant nonce, the single one when exactly
one is, and a `BAD_DATA` error when more than one is. -/
def getExecutedRecoveryRequestForLatestNonce
    (nonceResult : NonceReadResult) (fetchByNonce : FetchByNonce) :
    Except SafeRecoveryServiceSdkError (Option RecoveryByGuardianRequest) :=
  match getRecoveryRequestsForLatestNonce nonceResult fetchByNonce .EXECUTED with
  | .error e => .error e
  | .ok recoveryRequests =>
      if recoveryRequests.length == 0 then
        .ok none
      else if h : recoveryRequests.length = 1 then
        .ok (some (recoveryRequests.get ⟨0, by omega⟩))
      else
        .error { code := .BAD_DATA,
                 message := "getExecutedRecoveryRequestsForLatestNonce failed" }

/-- `getFinalizedRecoveryRequestForLatestNonce`: same trichotomy as the
EXECUTED variant. -/
def getFinalizedRecoveryRequestForLatestNonce
    (nonceResult : NonceReadResult) (fetchByNonce : FetchByNonce) :
    Except SafeRecoveryServiceSdkError (Option RecoveryByGuardianRequest) :=
  match getRecoveryRequestsForLatestNonce nonceResult fetchByNonce .FINALIZED with
  | .error e => .error e
  | .ok recoveryRequests =>
      if recoveryRequests.length == 0 then
        .ok none
      else if h : recoveryRequests.length = 1 then
        .ok (some (recoveryRequests.get ⟨0, by omega⟩))
      else
        .error { code := .BAD_DATA,
                 message := "getFinalizedRecoveryRequestsForLatestNonce failed" }

end RecoveryByGuardianService

/-! ## The JSON value model

`sendHttpRequest` works on untyped JavaScript values: request payloads of the
TypeScript type `JsonRpcParam` (which may contain `bigint`s) and parsed JSON
replies (which may not).  Values are modelled by a mutual inductive family so
that structural recursion and induction stay elementary. -/

mutual
/-- An untyped JavaScript value as it flows through `sendHttpRequest`:
payload values (`JsonRpcParam`, possibly holding `bigint`s) and parsed JSON
replies.  `undefined` is the value of a property read that found nothing. -/
inductive JsonValue where
  | undefined : JsonValue
  | null : JsonValue
  | bool (b : Bool) : JsonValue
  | num (n : Int) : JsonValue
  | bigint (n : Int) : JsonValue
  | str (s : String) : JsonValue
  | arr (elems : JsonList) : JsonValue
  | obj (fields : JsonFields) : JsonValue
deriving DecidableEq, Repr

/-- A list of JSON values (elements of a JavaScript array). -/
inductive JsonList where
  | nil : JsonList
  | cons (head : JsonValue) (tail : JsonList) : JsonList
deriving DecidableEq, Repr

/-- The own enumerable properties of a JavaScript object, in insertion
order; parsed JSON objects have pairwise distinct keys. -/
inductive JsonFields where
  | nil : JsonFields
  | cons (key : String) (value : JsonValue) (tail : JsonFields) : JsonFields
deriving DecidableEq, Repr
end

/-- First field with the given key, if any (property lookup on an object). -/
def JsonFields.lookupField : JsonFields → String → Option JsonValue
  | .nil, _ => none
  | .cons k v t, key => if k == key then some v else t.lookupField key

/-- The JavaScript `in` check for a key on an object's fields. -/
def JsonFields.hasField (fs : JsonFields) (key : String) : Bool :=
  (fs.lookupField key).isSome

/-- JavaScript property read `v[key]`: the field's value on an object,
`undefined` on anything else (arrays carry only index properties, primitives
have no such property; reads on `null`/`undefined` would throw but no
modelled code path performs one). -/
def JsonValue.propOf (v : JsonValue) (key : String) : JsonValue :=
  match v with
  | .obj fields => (fields.lookupField key).getD .undefined
  | _ => .undefined

/-- Lowercase hexadecimal digits of a natural number, as produced by
JavaScript's `toString(16)` (so `"0"` for `0`). -/
def natToHexDigits (n : Nat) : String :=
  String.mk (Nat.toDigits 16 n)

/-- `"0x" + value.toString(16)` for a `bigint` value, the conversion done by
the `sendHttpRequest` JSON replacer and by `ethers.toQuantity`. -/
def bigintToHexQuantity (n : Int) : String :=
  "0x" ++ (if n < 0 then "-" ++ natToHexDigits n.natAbs else natToHexDigits n.natAbs)

mutual
/-- JavaScript `String(value)` conversion, as applied by `URLSearchParams`
to each property value and by `String(err.code)`. -/
def jsToString : JsonValue → String
  | .undefined => "undefined"
  | .null => "null"
  | .bool b => if b then "true" else "false"
  | .num n => toString n
  | .bigint n => toString n
  | .str s => s
  | .arr elems => jsToStringListJoin elems
  | .obj _ => "[object Object]"

/-- `Array.prototype.toString`: elements joined by `","`, with `null` and
`undefined` elements rendered as the empty string. -/
def jsToStringListJoin : JsonList → String
  | .nil => ""
  | .cons h .nil => jsToStringJoinElem h
  | .cons h t => jsToStringJoinElem h ++ "," ++ jsToStringListJoin t

/-- One element in an array-to-string join. -/
def jsToStringJoinElem : JsonValue → String
  | .undefined => ""
  | .null => ""
  | v => jsToString v
end

/-- A JSON string literal: the escaped text between double quotes.  Only the
escapes `JSON.stringify` emits are produced. -/
def jsonQuoteString (s : String) : String :=
  let escapeChar : Char → String := fun c =>
    if c == '"' then "\\\""
    else if c == '\\' then "\\\\"
    else if c == '\n' then "\\n"
    else if c == '\r' then "\\r"
    else if c == '\t' then "\\t"
    else String.singleton c
  "\"" ++ String.join (s.data.map escapeChar) ++ "\""

mutual
/-- Plain `JSON.stringify` (no replacer): `none` models both the `undefined`
result on a lone `undefined` and the `TypeError` thrown on a `bigint`. -/
def jsonStringify : JsonValue → Option String
  | .undefined => none
  | .null => some "null"
  | .bool b => some (if b then "true" else "false")
  | .num n => some (toString n)
  | .bigint _ => none
  | .str s => some (jsonQuoteString s)
  | .arr elems => (jsonStringifyList elems).map (fun ss => "[" ++ String.intercalate "," ss ++ "]")
  | .obj fields => (jsonStringifyFields fields).map (fun ss => "\x7b" ++ String.intercalate "," ss ++ "\x7d")

/-- Rendered array elements: `undefined` elements render as `"null"`. -/
def jsonStringifyList : JsonList → Option (List String)
  | .nil => some []
  | .cons h t =>
      match (match h with | .undefined => some "null" | v => jsonStringify v),
            jsonStringifyList t with
      | some s, some rest => some (s :: rest)
      | _, _ => none

/-- Rendered object members: `undefined`-valued fields are omitted. -/
def jsonStringifyFields : JsonFields → Option (List String)
  | .nil => some []
  | .cons k v t =>
      match v with
      | .undefined => jsonStringifyFields t
      | v =>
          match jsonStringify v, jsonStringifyFields t with
          | some s, some rest => some ((jsonQuoteString k ++ ":" ++ s) :: rest)
          | _, _ => none
end

mutual
/-- `JSON.stringify(body, replacer)` as performed by `sendHttpRequest`
(`src/utils.ts` line 74): the replacer turns every `bigint` value into its
`"0x"`-prefixed hexadecimal string before serialization. -/
def jsonStringifyWithBigintReplacer : JsonValue → Option String
  | .undefined => none
  | .null => some "null"
  | .bool b => some (if b then "true" else "false")
  | .num n => some (toString n)
  | .bigint n => some (jsonQuoteString (bigintToHexQuantity n))
  | .str s => some (jsonQuoteString s)
  | .arr elems =>
      (jsonStringifyReplList elems).map (fun ss => "[" ++ String.intercalate "," ss ++ "]")
  | .obj fields =>
      (jsonStringifyReplFields fields).map (fun ss => "\x7b" ++ String.intercalate "," ss ++ "\x7d")

/-- Array elements under the bigint replacer. -/
def jsonStringifyReplList : JsonList → Option (List String)
  | .nil => some []
  | .cons h t =>
      match (match h with | .undefined => some "null" | v => jsonStringifyWithBigintReplacer v),
            jsonStringifyReplList t with
      | some s, some rest => some (s :: rest)
      | _, _ => none

/-- Object members under the bigint replacer. -/
def jsonStringifyReplFields : JsonFields → Option (List String)
  | .nil => some []
  | .cons k v t =>
      match v with
      | .undefined => jsonStringifyReplFields t
      | v =>
          match jsonStringifyWithBigintReplacer v, jsonStringifyReplFields t with
          | some s, some rest => some ((jsonQuoteString k ++ ":" ++ s) :: rest)
          | _, _ => none
end

mutual
/-- Replacement of every `bigint` value in a payload by its `"0x"`-prefixed
hexadecimal string, the effect of the `sendHttpRequest` replacer on the
payload as a whole. -/
def replaceBigints : JsonValue → JsonValue
  | .bigint n => .str (bigintToHexQuantity n)
  | .arr elems => .arr (replaceBigintsList elems)
  | .obj fields => .obj (replaceBigintsFields fields)
  | v => v

/-- `replaceBigints` on array elements. -/
def replaceBigintsList : JsonList → JsonList
  | .nil => .nil
  | .cons h t => .cons (replaceBigints h) (replaceBigintsList t)

/-- `replaceBigints` on object fields. -/
def replaceBigintsFields : JsonFields → JsonFields
  | .nil => .nil
  | .cons k v t => .cons k (replaceBigints v) (replaceBigintsFields t)
end

mutual
/-- Whether a value still holds a native `bigint` anywhere. -/
def containsBigint : JsonValue → Bool
  | .bigint _ => true
  | .arr elems => containsBigintList elems
  | .obj fields => containsBigintFields fields
  | _ => false

/-- `containsBigint` over array elements. -/
def containsBigintList : JsonList → Bool
  | .nil => false
  | .cons h t => containsBigint h || containsBigintList t

/-- `containsBigint` over object fields. -/
def containsBigintFields : JsonFields → Bool
  | .nil => false
  | .cons _ v t => containsBigint v || containsBigintFields t
end

/-- `new URLSearchParams(body).toString()` key/value pairs for a GET request
(`src/utils.ts` line 90): each own property value is converted with
JavaScript `String(value)`.  Percent-encoding of the final query string is
not modelled; every SDK GET call site passes a plain object, so a non-object
body is mapped to the empty parameter list. -/
def urlSearchParamsOfFields : JsonFields → List (String × String)
  | .nil => []
  | .cons k v t => (k, jsToString v) :: urlSearchParamsOfFields t

/-- See `urlSearchParamsOfFields`; a non-object body maps to the empty
parameter list (every SDK GET call site passes a plain object). -/
def urlSearchParamsOf : JsonValue → List (String × String)
  | .obj fields => urlSearchParamsOfFields fields
  | _ => []

/-- HTTP method selector of `sendHttpRequest`. -/
inductive HttpMethod where
  | post
  | get
deriving DecidableEq, Repr

/-- What `sendHttpRequest` puts on the wire for a request: the raw JSON body
of a POST (`none` models a serialization `TypeError`), or the query-string
parameters of a GET. -/
inductive RequestWire where
  | post (rawBody : Option String) : RequestWire
  | get (query : List (String × String)) : RequestWire
deriving DecidableEq, Repr

/-- The wire serialization performed by `sendHttpRequest` (`src/utils.ts`
lines 74-97): POST bodies go through `JSON.stringify` with the bigint-to-hex
replacer; GET bodies go through `URLSearchParams`, which uses plain
`String(value)` conversion instead. -/
def sendHttpRequestWire (body : JsonValue) : HttpMethod → RequestWire
  | .post => .post (jsonStringifyWithBigintReplacer body)
  | .get => .get (urlSearchParamsOf body)

/-- The own entries of `HttpErrorCodeDict` from `src/errors.ts`: the value
of `HttpErrorCodeDict[codeString]` when `codeString` is one of the ten
HTTP-derived error-code keys the dictionary literal declares. -/
def httpErrorCodeDict (codeString : String) : Option BasicErrorCode :=
  if codeString == "400" then some .HTTP_BAD_REQUEST
  else if codeString == "401" then some .HTTP_UNAUTHORIZED
  else if codeString == "403" then some .HTTP_FORBIDDEN
  else if codeString == "404" then some .HTTP_NOT_FOUND
  else if codeString == "409" then some .HTTP_CONFLICT
  else if codeString == "429" then some .HTTP_TOO_MANY_REQUESTS
  else if codeString == "500" then some .HTTP_INTERNAL_ERROR
  else if codeString == "502" then some .HTTP_BAD_GATEWAY
  else if codeString == "503" then some .HTTP_SERVICE_UNAVAILABLE
  else if codeString == "504" then some .HTTP_GATEWAY_TIMEOUT
  else none

/-- The property names every plain JavaScript object inherits from
`Object.prototype`, which the `in` operator also reports as present. -/
def objectPrototypeKeys : List String :=
  ["constructor", "hasOwnProperty", "isPrototypeOf", "propertyIsEnumerable",
   "toLocaleString", "toString", "valueOf", "__proto__",
   "__defineGetter__", "__defineSetter__", "__lookupGetter__", "__lookupSetter__"]

/-- The JavaScript check `codeString in HttpErrorCodeDict` performed by
`sendHttpRequest`: `in` walks the prototype chain, so it is true for the
ten own keys of the dictionary literal and also for every property name
inherited from `Object.prototype`. -/
def httpErrorCodeDictHasKey (codeString : String) : Bool :=
  (httpErrorCodeDict codeString).isSome
    || decide (codeString ∈ objectPrototypeKeys)

/-- A failure as observed by a caller of the SDK: a typed
`SafeRecoveryServiceSdkError`; a `SafeRecoveryServiceSdkError` whose `code`
field holds, instead of a `BasicErrorCode` string, the `Object.prototype`
member of the given name that `HttpErrorCodeDict[codeString]` produced for
an inherited key (for `__proto__`, the prototype object itself); or an
untyped JavaScript `TypeError` that escaped the SDK unwrapped. -/
inductive JsRuntimeFailure where
  | sdkError (e : SafeRecoveryServiceSdkError) : JsRuntimeFailure
  | sdkErrorInheritedCode (codeName message : String) : JsRuntimeFailure
  | typeError (message : String) : JsRuntimeFailure
deriving DecidableEq, Repr

/-- The `message` argument of the `SafeRecoveryServiceSdkError` built from an
embedded error reply: `err.message`, converted by the `Error` constructor
(`String(message)`, empty when the field is missing). -/
def errorMessageOf (fields : JsonFields) : String :=
  match fields.lookupField "message" with
  | none => ""
  | some .undefined => ""
  | some v => jsToString v

/-- The error-code inspection `sendHttpRequest` performs on a parsed reply
(`src/utils.ts` lines 116-143): if the reply has a `code` property the call
throws, carrying `err.message` — when `codeString in HttpErrorCodeDict`
holds, the thrown error's code is `HttpErrorCodeDict[codeString]`, which is
the mapped HTTP error kind for one of the ten own keys but the inherited
`Object.prototype` member for a prototype property name; any other code maps
to `UNKNOWN_ERROR`.  Otherwise the reply is returned.  (`Object.prototype`
has no `code` property, so modelling `"code" in response` as an own-property
lookup is exact; on a primitive reply that check throws a `TypeError`.) -/
def handleParsedResponse (response : JsonValue) :
    Except JsRuntimeFailure JsonValue :=
  match response with
  | .obj fields =>
      match fields.lookupField "code" with
      | some codeValue =>
          let codeString := jsToString codeValue
          if httpErrorCodeDictHasKey codeString then
            match httpErrorCodeDict codeString with
            | some httpCode =>
                .error (.sdkError { code := httpCode, message := errorMessageOf fields })
            | none =>
                .error (.sdkErrorInheritedCode codeString (errorMessageOf fields))
          else
            .error (.sdkError { code := .UNKNOWN_ERROR, message := errorMessageOf fields })
      | none => .ok response
  | .arr _ => .ok response
  | _ => .error (.typeError "Cannot use in operator to search for code in response")

/-- `sendHttpRequest` after serialization: the transport round trip
(`fetch` + `json()`) is a collaborator whose outcome is passed in; a
transport-level failure is wrapped as `UNKNOWN_ERROR` with the underlying
message, and a successful round trip goes through the embedded error-code
inspection. -/
def sendHttpRequest (fetchJsonResult : Except String JsonValue) :
    Except JsRuntimeFailure JsonValue :=
  match fetchJsonResult with
  | .error message =>
      .error (.sdkError { code := .UNKNOWN_ERROR, message := message })
  | .ok response => handleParsedResponse response

/-! ## Network configuration (`src/utils.ts`) -/

/-- `SocialRecoveryModuleGracePeriodSelector`: the four deployed recovery
module addresses, one per grace period. -/
inductive SocialRecoveryModuleGracePeriodSelector where
  | After3Minutes
  | After3Days
  | After7Days
  | After14Days
deriving DecidableEq, Repr

/-- The address string of each grace-period selector. -/
def SocialRecoveryModuleGracePeriodSelector.address :
    SocialRecoveryModuleGracePeriodSelector → String
  | .After3Minutes => "0x949d01d424bE050D09C16025dd007CB59b3A8c66"
  | .After3Days => "0x38275826E1933303E508433dD5f289315Da2541c"
  | .After7Days => "0x088f6cfD8BB1dDb1BB069CCb3fc1A98927D233f2"
  | .After14Days => "0x9BacD92F4687Db306D7ded5d4513a51EA05df25b"

/-- Rate limit of sponsored executions (`NetworkConfig.sponsorships`). -/
structure SponsorshipRateLimit where
  maxPerAccount : Nat
  period : Nat
deriving DecidableEq, Repr

/-- Execution-sponsorship part of a `NetworkConfig`. -/
structure ExecutionSponsorshipConfig where
  enabled : Bool
  rateLimit : SponsorshipRateLimit
deriving DecidableEq, Repr

/-- Finalization-sponsorship part of a `NetworkConfig`. -/
structure FinalizationSponsorshipConfig where
  enabled : Bool
deriving DecidableEq, Repr

/-- Sponsorship feature flags of a `NetworkConfig`. -/
structure SponsorshipsConfig where
  execution : ExecutionSponsorshipConfig
  finalization : FinalizationSponsorshipConfig
deriving DecidableEq, Repr

/-- An out-of-band alert channel. -/
inductive AlertChannel where
  | email
  | sms
deriving DecidableEq, Repr

/-- `NetworkConfig` from `src/utils.ts`: chain-specific module address and
feature flags returned by `/v1/config/getNetworkConfig`. -/
structure NetworkConfig where
  name : String
  chainId : Nat
  moduleAddress : SocialRecoveryModuleGracePeriodSelector
  sponsorships : SponsorshipsConfig
  alertChannels : List AlertChannel
deriving DecidableEq, Repr

/-! ## SIWE statement builder (`src/utils.ts`, `generateSIWEMessage`) -/

/-- The constructor argument of `siwe`'s `SiweMessage` as filled in by
`generateSIWEMessage`. -/
structure SiweMessageFields where
  version : String
  address : String
  domain : String
  uri : String
  statement : String
  chainId : Nat
  nonce : String
  issuedAt : String
deriving DecidableEq, Repr

/-- The lines of the prepared EIP-4361 message rendered by the `siwe`
library's `prepareMessage` for a message with a statement.  The `siwe`
package is an external collaborator; its rendering is modelled from the
EIP-4361 message format it implements. -/
def siweMessageLines (m : SiweMessageFields) : List String :=
  [ m.domain ++ " wants you to sign in with your Ethereum account:",
    m.address,
    "",
    m.statement,
    "",
    "URI: " ++ m.uri,
    "Version: " ++ m.version,
    "Chain ID: " ++ toString m.chainId,
    "Nonce: " ++ m.nonce,
    "Issued At: " ++ m.issuedAt ]

/-- `siweMessage.prepareMessage()`: the lines joined by newlines. -/
def prepareMessage (m : SiweMessageFields) : String :=
  String.intercalate "\n" (siweMessageLines m)

/-- Two lowercase hexadecimal digits of one byte. -/
def byteToHexPair (b : Nat) : String :=
  String.mk [Nat.digitChar (b / 16 % 16), Nat.digitChar (b % 16)]

/-- Concatenation of a list of strings. -/
def concatStrings : List String → String
  | [] => ""
  | s :: rest => s ++ concatStrings rest

/-- `ethers.hexlify`: `"0x"` followed by two lowercase hexadecimal digits
per byte. -/
def hexlify (bytes : List Nat) : String :=
  "0x" ++ concatStrings (bytes.map byteToHexPair)

/-- `generateSIWEMessage` from `src/utils.ts`: validates the subject address
with `ethers.getAddress` (an external collaborator, passed in together with
the randomness source and the clock reading), then prepares a SIWE message
carrying the statement, domain, uri and chain id, a nonce hexlified from 24
fresh random bytes, and the issuance timestamp.  Any error thrown inside
(in particular a malformed address) is wrapped as `SIWE_ERROR` carrying the
underlying message. -/
def generateSIWEMessage
    (getAddress : String → Except String String)
    (randomBytes : Nat → List Nat)
    (nowIsoString : String)
    (accountAddress statement : String) (chainId : Nat)
    (siweDomain siweUri : String) :
    Except SafeRecoveryServiceSdkError String :=
  let issuedAt := nowIsoString
  match getAddress accountAddress with
  | .error message => .error { code := .SIWE_ERROR, message := message }
  | .ok address =>
      .ok (prepareMessage
        { version := "1"
          address := address
          domain := siweDomain
          uri := siweUri
          statement := statement
          chainId := chainId
          nonce := hexlify (randomBytes 24)
          issuedAt := issuedAt })

/-! ## Custodial guardian client (`src/recoveryByCustodialGuardian.ts`) -/

namespace RecoveryByCustodialGuardian

/-- `Registration`: one out-of-band channel bound to an account. -/
structure Registration where
  id : String
  channel : String
  target : String
deriving DecidableEq, Repr

/-- The per-element shape check of `getRegistrations`: the element must be a
non-null object with string `id`, `channel` and `target` properties (a
JavaScript array also has `typeof === "object"` but lacks those properties,
so it fails the check too). -/
def asRegistration (v : JsonValue) : Option Registration :=
  match v with
  | .obj fields =>
      match fields.lookupField "id", fields.lookupField "channel",
            fields.lookupField "target" with
      | some (.str id), some (.str channel), some (.str target) =>
          some { id := id, channel := channel, target := target }
      | _, _, _ => none
  | _ => none

/-- A `JsonList` as a Lean list of values (iteration order of a JavaScript
array). -/
def valuesOfJsonList : JsonList → List JsonValue
  | .nil => []
  | .cons h t => h :: valuesOfJsonList t

/-- The validation loop of `getRegistrations`: elements are checked in
order; the first malformed one makes the whole call throw `BAD_DATA`. -/
def validateRegistrationElements (fullServiceEndpointUrl : String) :
    List JsonValue → Except JsRuntimeFailure (List Registration)
  | [] => .ok []
  | element :: rest =>
      match asRegistration element with
      | none =>
          .error (.sdkError { code := .BAD_DATA,
                              message := fullServiceEndpointUrl ++ " failed" })
      | some registration =>
          (validateRegistrationElements fullServiceEndpointUrl rest).map
            (fun tail => registration :: tail)

/-- `getRegistrations` applied to the parsed reply of a successful
`/v1/auth/registrations` round trip: the code reads `response["registrations"]`
without checking it exists and runs `for (const element of registrations)`
over it — if the property is missing or not iterable, that loop header throws
an untyped JavaScript `TypeError` instead of an SDK error.  (A string value
is iterable in JavaScript: its characters all fail the element shape check,
except that the empty string yields an empty iteration.) -/
def getRegistrations (serviceEndpoint : String) (response : JsonValue) :
    Except JsRuntimeFailure (List Registration) :=
  let fullServiceEndpointUrl := serviceEndpoint ++ "/v1/auth/registrations"
  match response.propOf "registrations" with
  | .arr elems =>
      validateRegistrationElements fullServiceEndpointUrl (valuesOfJsonList elems)
  | .str s =>
      if s == "" then .ok []
      else .error (.sdkError { code := .BAD_DATA,
                               message := fullServiceEndpointUrl ++ " failed" })
  | _ => .error (.typeError "registrations is not iterable")

/-- The result object of `submitCustodialGuardianSignatureChallenge`; the
fields hold whatever JavaScript values the reply carried (`undefined` when
the reply lacked them — the declared TypeScript types are not enforced). -/
structure SubmitChallengeResult where
  success : JsonValue
  custodianGuardianAddress : JsonValue
  custodianGuardianSignature : JsonValue
deriving DecidableEq, Repr

/-- `submitCustodialGuardianSignatureChallenge` from
`src/recoveryByCustodialGuardian.ts`: forwards the parsed reply of
`/v1/auth/signature/submit` verbatim — `success`, `signer` and `signature`
are read off the reply with no shape validation and renamed; transport-level
failures propagate unchanged. -/
def submitCustodialGuardianSignatureChallenge
    (response : Except JsRuntimeFailure JsonValue) :
    Except JsRuntimeFailure SubmitChallengeResult :=
  match response with
  | .error e => .error e
  | .ok r =>
      .ok { success := r.propOf "success"
            custodianGuardianAddress := r.propOf "signer"
            custodianGuardianSignature := r.propOf "signature" }

/-- `createAndExecuteRecoveryRequest`: fetches the network configuration,
creates a recovery request through the guardian service, executes it, and
fails loudly (`BAD_DATA`) when execution does not report success — the
created-but-unexecuted request is never returned in that case.  The three
service round trips are collaborators passed in by outcome. -/
def createAndExecuteRecoveryRequest
    (networkConfigResult : Except SafeRecoveryServiceSdkError NetworkConfig)
    (createResult : Except SafeRecoveryServiceSdkError RecoveryByGuardianRequest)
    (executeResult : String → Except SafeRecoveryServiceSdkError Bool) :
    Except SafeRecoveryServiceSdkError RecoveryByGuardianRequest :=
  match networkConfigResult with
  | .error e => .error e
  | .ok _networkConfig =>
      match createResult with
      | .error e => .error e
      | .ok recoveryRequest =>
          match executeResult recoveryRequest.id with
          | .error e => .error e
          | .ok success =>
              if !success then
                .error { code := .BAD_DATA, message := "executeRecoveryRequest failed" }
              else
                .ok recoveryRequest

end RecoveryByCustodialGuardian

/-! ## The custodial authority's verify-all-channels policy

Modelled from the spec: the authority side of the multi-channel signature
protocol (issuing and checking the one-time challenges of a
`SignatureRequest`, releasing the custodial signature) lives in the remote
recovery service and is not part of this repository's sources; it is
modelled here from §4.5 and §3 of the specification. -/

/-- Modelled from the spec: one `auths` entry of a custodial
`SignatureRequest` — a challenge id bound to one registered channel,
together with the one-time code delivered over that channel. -/
structure AuthChallenge where
  challengeId : String
  code : String
deriving DecidableEq, Repr

/-- Modelled from the spec: the authority's state for one custodial
`SignatureRequest`: `requiredVerifications` equals the number of `auths`
entries, `verified` records the challenge ids already successfully and
independently verified, and the `(signerAddress, signerSignature)` pair is
the authorizing custodial signature to be released. -/
structure SignatureRequestState where
  requiredVerifications : Nat
  auths : List AuthChallenge
  verified : List String
  signerAddress : String
  signerSignature : String
deriving DecidableEq, Repr

/-- Modelled from the spec: whether one challenge submission is accepted —
the challenge id must belong to the request's `auths`, the code must match,
and the challenge must not have been used before (one-time use). -/
def challengeAccepted (st : SignatureRequestState)
    (challengeId code : String) : Bool :=
  match st.auths.find? (fun a => a.challengeId == challengeId) with
  | none => false
  | some a => a.code == code && !(st.verified.contains challengeId)

/-- Modelled from the spec: the authority's handling of one
`/v1/auth/signature/submit` call.  A rejected submission leaves the state
unchanged and replies `success = false`.  An accepted one records the
channel as verified; the `(signer, signature)` pair is put in the reply only
when every `auths` entry is now verified (`verified` count reaches
`requiredVerifications`), otherwise the reply carries `success = true`
alone. -/
def authoritySubmitSignatureChallenge (st : SignatureRequestState)
    (challengeId code : String) : SignatureRequestState × JsonValue :=
  if challengeAccepted st challengeId code then
    let st2 : SignatureRequestState := { st with verified := challengeId :: st.verified }
    if st2.verified.length == st.requiredVerifications then
      (st2, .obj (.cons "success" (.bool true)
              (.cons "signer" (.str st.signerAddress)
                (.cons "signature" (.str st.signerSignature) .nil))))
    else
      (st2, .obj (.cons "success" (.bool true) .nil))
  else
    (st, .obj (.cons "success" (.bool false) .nil))

/-! ## Remaining guardian-service methods (`src/recoveryByGuardian.ts`)

The transport-facing methods: request construction and the reply shape
checks, over the untyped value model. -/

/-- A Lean list of values as a `JsonList` (array literal construction). -/
def jsonListOfValues : List JsonValue → JsonList
  | [] => .nil
  | v :: rest => .cons v (jsonListOfValues rest)

namespace RecoveryByGuardianService

/-- The reply shape check shared verbatim by `submitGuardianSignatureFor-`
`RecoveryRequest`, `executeRecoveryRequest` and `finalizeRecoveryRequest`:
the reply must be a non-null object with a boolean `success` property. -/
def successFieldOf (response : JsonValue) : Option Bool :=
  match response with
  | .obj fields =>
      match fields.lookupField "success" with
      | some (.bool b) => some b
      | _ => none
  | _ => none

/-- `submitGuardianSignatureForRecoveryRequest`: POSTs to
`/v1/recoveries/sign` and returns the reply's boolean `success`, throwing
`BAD_DATA` when the reply does not have that shape. -/
def submitGuardianSignatureForRecoveryRequest (serviceEndpoint : String)
    (response : Except JsRuntimeFailure JsonValue) :
    Except JsRuntimeFailure Bool :=
  let fullServiceEndpointUrl := serviceEndpoint ++ "/v1/recoveries/sign"
  match response with
  | .error e => .error e
  | .ok r =>
      match successFieldOf r with
      | some b => .ok b
      | none => .error (.sdkError { code := .BAD_DATA,
                                    message := fullServiceEndpointUrl ++ " failed" })

/-- The request body of `submitGuardianSignatureForRecoveryRequest`. -/
def submitGuardianSignatureRequestBody (id signer signature : String) : JsonValue :=
  .obj (.cons "id" (.str id)
         (.cons "signer" (.str signer)
           (.cons "signature" (.str signature) .nil)))

/-- `executeRecoveryRequest`: POSTs `{id}` to `/v1/recoveries/execute` and
returns the reply's boolean `success`, throwing `BAD_DATA` on any other
reply shape. -/
def executeRecoveryRequest (serviceEndpoint : String)
    (response : Except JsRuntimeFailure JsonValue) :
    Except JsRuntimeFailure Bool :=
  let fullServiceEndpointUrl := serviceEndpoint ++ "/v1/recoveries/execute"
  match response with
  | .error e => .error e
  | .ok r =>
      match successFieldOf r with
      | some b => .ok b
      | none => .error (.sdkError { code := .BAD_DATA,
                                    message := fullServiceEndpointUrl ++ " failed" })

/-- `finalizeRecoveryRequest`: POSTs `{id}` to `/v1/recoveries/finalize` and
returns the reply's boolean `success`, throwing `BAD_DATA` on any other
reply shape. -/
def finalizeRecoveryRequest (serviceEndpoint : String)
    (response : Except JsRuntimeFailure JsonValue) :
    Except JsRuntimeFailure Bool :=
  let fullServiceEndpointUrl := serviceEndpoint ++ "/v1/recoveries/finalize"
  match response with
  | .error e => .error e
  | .ok r =>
      match successFieldOf r with
      | some b => .ok b
      | none => .error (.sdkError { code := .BAD_DATA,
                                    message := fullServiceEndpointUrl ++ " failed" })

/-- The GET request of `getRecoveryRequests`: endpoint URL and query
payload — `chainId` as a number (`parseInt` of the bigint's decimal string)
and the recovery nonce as `ethers.toQuantity` hexadecimal. -/
def getRecoveryRequestsRequest (serviceEndpoint account : String)
    (chainId recoveryNonce : Nat) : String × JsonValue :=
  (serviceEndpoint ++ "/v1/recoveries/fetchByAddress",
   .obj (.cons "account" (.str account)
          (.cons "chainId" (.num (Int.ofNat chainId))
            (.cons "nonce" (.str (bigintToHexQuantity (Int.ofNat recoveryNonce))) .nil))))

/-- The POST body of `createRecoveryRequest`. -/
def createRecoveryRequestBody (account : String) (newOwners : List String)
    (newThreshold : Nat) (chainId : Nat) (signer signature : String) : JsonValue :=
  .obj (.cons "account" (.str account)
         (.cons "newOwners" (.arr (jsonListOfValues (newOwners.map .str)))
           (.cons "newThreshold" (.num (Int.ofNat newThreshold))
             (.cons "chainId" (.num (Int.ofNat chainId))
               (.cons "signer" (.str signer)
                 (.cons "signature" (.str signature) .nil))))))

/-- `createRecoveryRequest` after transport and parsing: the reply is
blind-cast to a `RecoveryByGuardianRequest` (its `nonce` converted with
`BigInt`, reflected in the typed parse) and returned unchanged. -/
def createRecoveryRequest
    (response : Except JsRuntimeFailure RecoveryByGuardianRequest) :
    Except JsRuntimeFailure RecoveryByGuardianRequest :=
  match response with
  | .error e => .error e
  | .ok recoveryRequest => .ok recoveryRequest

end RecoveryByGuardianService

/-! ## The duplicate guardian-service implementation

The source tree carries a second, near-duplicate copy of the
`RecoveryByGuardianService` class; its methods are embedded here separately
so the two implementations can be compared. -/

namespace RecoveryByGuardianServiceDup

/-- Duplicate implementation of `getRecoveryRequestsForLatestNonce`. -/
def getRecoveryRequestsForLatestNonce
    (nonceResult : NonceReadResult) (fetchByNonce : FetchByNonce)
    (status : RecoveryStatus) :
    Except SafeRecoveryServiceSdkError (List RecoveryByGuardianRequest) :=
  match nonceResult with
  | .error _ =>
      .error { code := .UNKNOWN_ERROR, message := "failed fetching nonce" }
  | .ok recoveryNonce =>
      if recoveryNonce == 0 && !(status == .PENDING) then
        .ok []
      else
        let recoveryNonce :=
          if !(status == .PENDING) then recoveryNonce - 1 else recoveryNonce
        match fetchByNonce recoveryNonce with
        | .error e => .error e
        | .ok result => .ok (result.filter (fun r => r.status == status))

/-- Duplicate implementation of `getPendingRecoveryRequestsForLatestNonce`. -/
def getPendingRecoveryRequestsForLatestNonce
    (nonceResult : NonceReadResult) (fetchByNonce : FetchByNonce) :
    Except SafeRecoveryServiceSdkError (List RecoveryByGuardianRequest) :=
  getRecoveryRequestsForLatestNonce nonceResult fetchByNonce .PENDING

/-- Duplicate implementation of `getExecutedRecoveryRequestForLatestNonce`. -/
def getExecutedRecoveryRequestForLatestNonce
    (nonceResult : NonceReadResult) (fetchByNonce : FetchByNonce) :
    Except SafeRecoveryServiceSdkError (Option RecoveryByGuardianRequest) :=
  match getRecoveryRequestsForLatestNonce nonceResult fetchByNonce .EXECUTED with
  | .error e => .error e
  | .ok recoveryRequests =>
      if recoveryRequests.length == 0 then
        .ok none
      else if h : recoveryRequests.length = 1 then
        .ok (some (recoveryRequests.get ⟨0, by omega⟩))
      else
        .error { code := .BAD_DATA,
                 message := "getExecutedRecoveryRequestsForLatestNonce failed" }

/-- Duplicate implementation of `getFinalizedRecoveryRequestForLatestNonce`. -/
def getFinalizedRecoveryRequestForLatestNonce
    (nonceResult : NonceReadResult) (fetchByNonce : FetchByNonce) :
    Except SafeRecoveryServiceSdkError (Option RecoveryByGuardianRequest) :=
  match getRecoveryRequestsForLatestNonce nonceResult fetchByNonce .FINALIZED with
  | .error e => .error e
  | .ok recoveryRequests =>
      if recoveryRequests.length == 0 then
        .ok none
      else if h : recoveryRequests.length = 1 then
        .ok (some (recoveryRequests.get ⟨0, by omega⟩))
      else
        .error { code := .BAD_DATA,
                 message := "getFinalizedRecoveryRequestsForLatestNonce failed" }

/-- Duplicate copy of the boolean-reply shape check. -/
def successFieldOf (response : JsonValue) : Option Bool :=
  match response with
  | .obj fields =>
      match fields.lookupField "success" with
      | some (.bool b) => some b
      | _ => none
  | _ => none

/-- Duplicate implementation of `submitGuardianSignatureForRecoveryRequest`. -/
def submitGuardianSignatureForRecoveryRequest (serviceEndpoint : String)
    (response : Except JsRuntimeFailure JsonValue) :
    Except JsRuntimeFailure Bool :=
  let fullServiceEndpointUrl := serviceEndpoint ++ "/v1/recoveries/sign"
  match response with
  | .error e => .error e
  | .ok r =>
      match successFieldOf r with
      | some b => .ok b
      | none => .error (.sdkError { code := .BAD_DATA,
                                    message := fullServiceEndpointUrl ++ " failed" })

/-- Duplicate copy of the `submitGuardianSignature` request body. -/
def submitGuardianSignatureRequestBody (id signer signature : String) : JsonValue :=
  .obj (.cons "id" (.str id)
         (.cons "signer" (.str signer)
           (.cons "signature" (.str signature) .nil)))

/-- Duplicate implementation of `executeRecoveryRequest`. -/
def executeRecoveryRequest (serviceEndpoint : String)
    (response : Except JsRuntimeFailure JsonValue) :
    Except JsRuntimeFailure Bool :=
  let fullServiceEndpointUrl := serviceEndpoint ++ "/v1/recoveries/execute"
  match response with
  | .error e => .error e
  | .ok r =>
      match successFieldOf r with
      | some b => .ok b
      | none => .error (.sdkError { code := .BAD_DATA,
                                    message := fullServiceEndpointUrl ++ " failed" })

/-- Duplicate implementation of `finalizeRecoveryRequest`. -/
def finalizeRecoveryRequest (serviceEndpoint : String)
    (response : Except JsRuntimeFailure JsonValue) :
    Except JsRuntimeFailure Bool :=
  let fullServiceEndpointUrl := serviceEndpoint ++ "/v1/recoveries/finalize"
  match response with
  | .error e => .error e
  | .ok r =>
      match successFieldOf r with
      | some b => .ok b
      | none => .error (.sdkError { code := .BAD_DATA,
                                    message := fullServiceEndpointUrl ++ " failed" })

/-- Duplicate copy of the `getRecoveryRequests` GET request. -/
def getRecoveryRequestsRequest (serviceEndpoint account : String)
    (chainId recoveryNonce : Nat) : String × JsonValue :=
  (serviceEndpoint ++ "/v1/recoveries/fetchByAddress",
   .obj (.cons "account" (.str account)
          (.cons "chainId" (.num (Int.ofNat chainId))
            (.cons "nonce" (.str (bigintToHexQuantity (Int.ofNat recoveryNonce))) .nil))))

/-- Duplicate copy of the `createRecoveryRequest` POST body. -/
def createRecoveryRequestBody (account : String) (newOwners : List String)
    (newThreshold : Nat) (chainId : Nat) (signer signature : String) : JsonValue :=
  .obj (.cons "account" (.str account)
         (.cons "newOwners" (.arr (jsonListOfValues (newOwners.map .str)))
           (.cons "newThreshold" (.num (Int.ofNat newThreshold))
             (.cons "chainId" (.num (Int.ofNat chainId))
               (.cons "signer" (.str signer)
                 (.cons "signature" (.str signature) .nil))))))

/-- Duplicate implementation of `createRecoveryRequest`. -/
def createRecoveryRequest
    (response : Except JsRuntimeFailure RecoveryByGuardianRequest) :
    Except JsRuntimeFailure RecoveryByGuardianRequest :=
  match response with
  | .error e => .error e
  | .ok recoveryRequest => .ok recoveryRequest

end RecoveryByGuardianServiceDup

/-! ## Sample data for concrete instantiations -/

/-- A sample recovery request with the given status. -/
def sampleRequest (status : RecoveryStatus) : RecoveryByGuardianRequest :=
  { id := "req-1"
    emoji := "🐢🌊🎈"
    account := "0x1111111111111111111111111111111111111111"
    newOwners := ["0x2222222222222222222222222222222222222222"]
    newThreshold := 1
    chainId := 1
    nonce := 1
    signatures := ["0xsig1"]
    executeData := { sponsored := false, transactionHash := none }
    finalizeData := { sponsored := false, transactionHash := none }
    status := status
    discoverable := true
    createdAt := "2024-01-01T00:00:00Z"
    updatedAt := "2024-01-01T00:00:00Z" }

/-! ## Resolver lemmas shared by the status-query theorems -/

/-- With a zero on-chain nonce and a non-PENDING status the resolver answers
the empty list without querying. -/
theorem resolver_zero_nonpending (fetchByNonce : FetchByNonce)
    (status : RecoveryStatus) (hs : status ≠ .PENDING) :
    RecoveryByGuardianService.getRecoveryRequestsForLatestNonce
      (.ok 0) fetchByNonce status = .ok [] := by
  simp [RecoveryByGuardianService.getRecoveryRequestsForLatestNonce, hs]

/-- For PENDING the resolver queries at the nonce itself and filters. -/
theorem resolver_pending (n : Nat) (fetchByNonce : FetchByNonce)
    (l : List RecoveryByGuardianRequest) (hf : fetchByNonce n = .ok l) :
    RecoveryByGuardianService.getRecoveryRequestsForLatestNonce
      (.ok n) fetchByNonce .PENDING
      = .ok (l.filter (fun r => r.status == .PENDING)) := by
  simp [RecoveryByGuardianService.getRecoveryRequestsForLatestNonce, hf]

/-- For a non-PENDING status and a nonzero nonce the resolver queries at the
nonce minus one and filters. -/
theorem resolver_nonpending (n : Nat) (fetchByNonce : FetchByNonce)
    (status : RecoveryStatus) (l : List RecoveryByGuardianRequest)
    (hs : status ≠ .PENDING) (hn : n ≠ 0)
    (hf : fetchByNonce (n - 1) = .ok l) :
    RecoveryByGuardianService.getRecoveryRequestsForLatestNonce
      (.ok n) fetchByNonce status
      = .ok (l.filter (fun r => r.status == status)) := by
  simp [RecoveryByGuardianService.getRecoveryRequestsForLatestNonce, hs, hn, hf]

/-- A sample `getRecoveryRequests` behaviour: one request of each status at
every nonce. -/
def sampleFetch : FetchByNonce := fun _ =>
  .ok [sampleRequest .PENDING, sampleRequest .EXECUTED, sampleRequest .FINALIZED]

/-- C1: Nonce-scoped status resolution — for an account whose current
on-chain recovery nonce is `n`, `getRecoveryRequestsForLatestNonce` returns
the empty list when the status is EXECUTED or FINALIZED and `n = 0`;
otherwise it queries the stored requests at nonce `n` for PENDING and at
nonce `n - 1` for EXECUTED/FINALIZED, and returns exactly the fetched
requests whose status equals the requested one, in the fetched order. -/
theorem nonceScopedStatusResolution_spec
    (n : Nat) (fetchByNonce : FetchByNonce) (status : RecoveryStatus)
    (l : List RecoveryByGuardianRequest) :
    (status ≠ .PENDING → n = 0 →
      RecoveryByGuardianService.getRecoveryRequestsForLatestNonce
        (.ok n) fetchByNonce status = .ok [])
    ∧ (status = .PENDING → fetchByNonce n = .ok l →
      RecoveryByGuardianService.getRecoveryRequestsForLatestNonce
        (.ok n) fetchByNonce status
        = .ok (l.filter (fun r => r.status == status)))
    ∧ (status ≠ .PENDING → n ≠ 0 → fetchByNonce (n - 1) = .ok l →
      RecoveryByGuardianService.getRecoveryRequestsForLatestNonce
        (.ok n) fetchByNonce status
        = .ok (l.filter (fun r => r.status == status))) := by
  refine ⟨?_, ?_, ?_⟩
  · intro hs hn
    subst hn
    exact resolver_zero_nonpending fetchByNonce status hs
  · intro hs hf
    subst hs
    exact resolver_pending n fetchByNonce l hf
  · intro hs hn hf
    exact resolver_nonpending n fetchByNonce status l hs hn hf

/-- Witness for C1 at concrete inputs. -/
theorem nonceScopedStatusResolution_witness :
    RecoveryByGuardianService.getRecoveryRequestsForLatestNonce
      (.ok 0) sampleFetch .EXECUTED = .ok []
    ∧ RecoveryByGuardianService.getRecoveryRequestsForLatestNonce
      (.ok 2) sampleFetch .PENDING = .ok [sampleRequest .PENDING]
    ∧ RecoveryByGuardianService.getRecoveryRequestsForLatestNonce
      (.ok 2) sampleFetch .EXECUTED = .ok [sampleRequest .EXECUTED] := by
  refine ⟨?_, ?_, ?_⟩
  · exact (nonceScopedStatusResolution_spec 0 sampleFetch .EXECUTED []).1
      (by decide) rfl
  · exact (nonceScopedStatusResolution_spec 2 sampleFetch .PENDING
      [sampleRequest .PENDING, sampleRequest .EXECUTED, sampleRequest .FINALIZED]).2.1
      rfl rfl
  · exact (nonceScopedStatusResolution_spec 2 sampleFetch .EXECUTED
      [sampleRequest .PENDING, sampleRequest .EXECUTED, sampleRequest .FINALIZED]).2.2
      (by decide) (by decide) rfl

/-- C2: At most one executed/finalized per nonce, fail loudly —
`getExecutedRecoveryRequestForLatestNonce` and
`getFinalizedRecoveryRequestForLatestNonce` return `null` when the resolver
yields no matching request, the single request when it yields exactly one,
and raise a `BAD_DATA` `SafeRecoveryServiceSdkError` (never silently picking
one) when it yields more than one. -/
theorem executedFinalizedUniqueness_spec
    (n : Nat) (fetchByNonce : FetchByNonce) (l : List RecoveryByGuardianRequest) :
    (RecoveryByGuardianService.getExecutedRecoveryRequestForLatestNonce
        (.ok 0) fetchByNonce = .ok none)
    ∧ (RecoveryByGuardianService.getFinalizedRecoveryRequestForLatestNonce
        (.ok 0) fetchByNonce = .ok none)
    ∧ (n ≠ 0 → fetchByNonce (n - 1) = .ok l →
        ((l.filter (fun r => r.status == RecoveryStatus.EXECUTED) = [] →
            RecoveryByGuardianService.getExecutedRecoveryRequestForLatestNonce
              (.ok n) fetchByNonce = .ok none)
         ∧ (∀ r, l.filter (fun r => r.status == RecoveryStatus.EXECUTED) = [r] →
            RecoveryByGuardianService.getExecutedRecoveryRequestForLatestNonce
              (.ok n) fetchByNonce = .ok (some r))
         ∧ (1 < (l.filter (fun r => r.status == RecoveryStatus.EXECUTED)).length →
            ∃ e, RecoveryByGuardianService.getExecutedRecoveryRequestForLatestNonce
              (.ok n) fetchByNonce = .error e ∧ e.code = .BAD_DATA)))
    ∧ (n ≠ 0 → fetchByNonce (n - 1) = .ok l →
        ((l.filter (fun r => r.status == RecoveryStatus.FINALIZED) = [] →
            RecoveryByGuardianService.getFinalizedRecoveryRequestForLatestNonce
              (.ok n) fetchByNonce = .ok none)
         ∧ (∀ r, l.filter (fun r => r.status == RecoveryStatus.FINALIZED) = [r] →
            RecoveryByGuardianService.getFinalizedRecoveryRequestForLatestNonce
              (.ok n) fetchByNonce = .ok (some r))
         ∧ (1 < (l.filter (fun r => r.status == RecoveryStatus.FINALIZED)).length →
            ∃ e, RecoveryByGuardianService.getFinalizedRecoveryRequestForLatestNonce
              (.ok n) fetchByNonce = .error e ∧ e.code = .BAD_DATA))) := by
  refine ⟨?_, ?_, ?_, ?_⟩
  · rw [RecoveryByGuardianService.getExecutedRecoveryRequestForLatestNonce,
        resolver_zero_nonpending fetchByNonce .EXECUTED (by decide)]
    rfl
  · rw [RecoveryByGuardianService.getFinalizedRecoveryRequestForLatestNonce,
        resolver_zero_nonpending fetchByNonce .FINALIZED (by decide)]
    rfl
  · intro hn hf
    have h := resolver_nonpending n fetchByNonce .EXECUTED l (by decide) hn hf
    refine ⟨?_, ?_, ?_⟩
    · intro hfil
      rw [RecoveryByGuardianService.getExecutedRecoveryRequestForLatestNonce, h, hfil]
      rfl
    · intro r hfil
      rw [RecoveryByGuardianService.getExecutedRecoveryRequestForLatestNonce, h, hfil]
      simp
    · intro hlen
      rw [RecoveryByGuardianService.getExecutedRecoveryRequestForLatestNonce, h]
      have h0 : ((l.filter (fun r => r.status == RecoveryStatus.EXECUTED)).length == 0)
          = false := by
        simp only [beq_eq_false_iff_ne, ne_eq]
        omega
      have h1 : ¬ (l.filter (fun r => r.status == RecoveryStatus.EXECUTED)).length = 1 := by
        omega
      simp only [h0, Bool.false_eq_true, if_false, dif_neg h1]
      exact ⟨_, rfl, rfl⟩
  · intro hn hf
    have h := resolver_nonpending n fetchByNonce .FINALIZED l (by decide) hn hf
    refine ⟨?_, ?_, ?_⟩
    · intro hfil
      rw [RecoveryByGuardianService.getFinalizedRecoveryRequestForLatestNonce, h, hfil]
      rfl
    · intro r hfil
      rw [RecoveryByGuardianService.getFinalizedRecoveryRequestForLatestNonce, h, hfil]
      simp
    · intro hlen
      rw [RecoveryByGuardianService.getFinalizedRecoveryRequestForLatestNonce, h]
      have h0 : ((l.filter (fun r => r.status == RecoveryStatus.FINALIZED)).length == 0)
          = false := by
        simp only [beq_eq_false_iff_ne, ne_eq]
        omega
      have h1 : ¬ (l.filter (fun r => r.status == RecoveryStatus.FINALIZED)).length = 1 := by
        omega
      simp only [h0, Bool.false_eq_true, if_false, dif_neg h1]
      exact ⟨_, rfl, rfl⟩

/-- A fetch behaviour with two EXECUTED requests at every nonce (corrupt
authority data). -/
def sampleFetchTwoExecuted : FetchByNonce := fun _ =>
  .ok [sampleRequest .EXECUTED, sampleRequest .EXECUTED]

/-- Witness for C2 at concrete inputs. -/
theorem executedFinalizedUniqueness_witness :
    (RecoveryByGuardianService.getExecutedRecoveryRequestForLatestNonce
      (.ok 0) sampleFetch = .ok none)
    ∧ (RecoveryByGuardianService.getExecutedRecoveryRequestForLatestNonce
      (.ok 3) sampleFetch = .ok (some (sampleRequest .EXECUTED)))
    ∧ (∃ e, RecoveryByGuardianService.getExecutedRecoveryRequestForLatestNonce
      (.ok 3) sampleFetchTwoExecuted = .error e ∧ e.code = .BAD_DATA)
    ∧ (RecoveryByGuardianService.getFinalizedRecoveryRequestForLatestNonce
      (.ok 3) sampleFetchTwoExecuted = .ok none) := by
  refine ⟨?_, ?_, ?_, ?_⟩
  · exact (executedFinalizedUniqueness_spec 0 sampleFetch []).1
  · exact ((executedFinalizedUniqueness_spec 3 sampleFetch
      [sampleRequest .PENDING, sampleRequest .EXECUTED, sampleRequest .FINALIZED]).2.2.1
      (by decide) rfl).2.1 (sampleRequest .EXECUTED) (by decide)
  · exact ((executedFinalizedUniqueness_spec 3 sampleFetchTwoExecuted
      [sampleRequest .EXECUTED, sampleRequest .EXECUTED]).2.2.1
      (by decide) rfl).2.2 (by decide)
  · exact ((executedFinalizedUniqueness_spec 3 sampleFetchTwoExecuted
      [sampleRequest .EXECUTED, sampleRequest .EXECUTED]).2.2.2
      (by decide) rfl).1 (by decide)

/-- C10: The two near-duplicate `RecoveryByGuardianService` implementations
are extensionally equal — for every input and every behaviour of the
authority and ledger collaborators, each same-named method of the documented
implementation and of the duplicate implementation returns the same result
or raises the same error. -/
theorem duplicateGuardianService_equivalent :
    (∀ nonceResult fetchByNonce status,
      RecoveryByGuardianService.getRecoveryRequestsForLatestNonce
          nonceResult fetchByNonce status
        = RecoveryByGuardianServiceDup.getRecoveryRequestsForLatestNonce
          nonceResult fetchByNonce status)
    ∧ (∀ nonceResult fetchByNonce,
      RecoveryByGuardianService.getPendingRecoveryRequestsForLatestNonce
          nonceResult fetchByNonce
        = RecoveryByGuardianServiceDup.getPendingRecoveryRequestsForLatestNonce
          nonceResult fetchByNonce)
    ∧ (∀ nonceResult fetchByNonce,
      RecoveryByGuardianService.getExecutedRecoveryRequestForLatestNonce
          nonceResult fetchByNonce
        = RecoveryByGuardianServiceDup.getExecutedRecoveryRequestForLatestNonce
          nonceResult fetchByNonce)
    ∧ (∀ nonceResult fetchByNonce,
      RecoveryByGuardianService.getFinalizedRecoveryRequestForLatestNonce
          nonceResult fetchByNonce
        = RecoveryByGuardianServiceDup.getFinalizedRecoveryRequestForLatestNonce
          nonceResult fetchByNonce)
    ∧ (∀ serviceEndpoint account chainId recoveryNonce,
      RecoveryByGuardianService.getRecoveryRequestsRequest
          serviceEndpoint account chainId recoveryNonce
        = RecoveryByGuardianServiceDup.getRecoveryRequestsRequest
          serviceEndpoint account chainId recoveryNonce)
    ∧ (∀ account newOwners newThreshold chainId signer signature,
      RecoveryByGuardianService.createRecoveryRequestBody
          account newOwners newThreshold chainId signer signature
        = RecoveryByGuardianServiceDup.createRecoveryRequestBody
          account newOwners newThreshold chainId signer signature)
    ∧ (∀ response,
      RecoveryByGuardianService.createRecoveryRequest response
        = RecoveryByGuardianServiceDup.createRecoveryRequest response)
    ∧ (∀ id signer signature,
      RecoveryByGuardianService.submitGuardianSignatureRequestBody id signer signature
        = RecoveryByGuardianServiceDup.submitGuardianSignatureRequestBody id signer signature)
    ∧ (∀ serviceEndpoint response,
      RecoveryByGuardianService.submitGuardianSignatureForRecoveryRequest
          serviceEndpoint response
        = RecoveryByGuardianServiceDup.submitGuardianSignatureForRecoveryRequest
          serviceEndpoint response)
    ∧ (∀ serviceEndpoint response,
      RecoveryByGuardianService.executeRecoveryRequest serviceEndpoint response
        = RecoveryByGuardianServiceDup.executeRecoveryRequest serviceEndpoint response)
    ∧ (∀ serviceEndpoint response,
      RecoveryByGuardianService.finalizeRecoveryRequest serviceEndpoint response
        = RecoveryByGuardianServiceDup.finalizeRecoveryRequest serviceEndpoint response) :=
  ⟨fun _ _ _ => rfl, fun _ _ => rfl, fun _ _ => rfl, fun _ _ => rfl,
   fun _ _ _ _ => rfl, fun _ _ _ _ _ _ => rfl, fun _ => rfl, fun _ _ _ => rfl,
   fun _ _ => rfl, fun _ _ => rfl, fun _ _ => rfl⟩

/-- A sample network configuration. -/
def sampleNetworkConfig : NetworkConfig :=
  { name := "sepolia"
    chainId := 11155111
    moduleAddress := .After3Minutes
    sponsorships :=
      { execution := { enabled := true, rateLimit := { maxPerAccount := 2, period := 86400 } }
        finalization := { enabled := true } }
    alertChannels := [.email, .sms] }

/-- C4: Create-and-execute fails loudly — `createAndExecuteRecoveryRequest`
returns the request created by `createRecoveryRequest` exactly when the
subsequent `executeRecoveryRequest` call reported `success = true`; whenever
execution reports `success = false` it raises a `SafeRecoveryServiceSdkError`
instead of returning the created-but-unexecuted request. -/
theorem createAndExecuteFailsLoudly_spec
    (networkConfig : NetworkConfig)
    (recoveryRequest : RecoveryByGuardianRequest)
    (executeResult : String → Except SafeRecoveryServiceSdkError Bool) :
    (executeResult recoveryRequest.id = .ok true →
      RecoveryByCustodialGuardian.createAndExecuteRecoveryRequest
          (.ok networkConfig) (.ok recoveryRequest) executeResult
        = .ok recoveryRequest)
    ∧ (executeResult recoveryRequest.id = .ok false →
      RecoveryByCustodialGuardian.createAndExecuteRecoveryRequest
          (.ok networkConfig) (.ok recoveryRequest) executeResult
        = .error { code := .BAD_DATA, message := "executeRecoveryRequest failed" })
    ∧ (∀ result,
      RecoveryByCustodialGuardian.createAndExecuteRecoveryRequest
          (.ok networkConfig) (.ok recoveryRequest) executeResult
        = .ok result →
      result = recoveryRequest ∧ executeResult recoveryRequest.id = .ok true) := by
  refine ⟨?_, ?_, ?_⟩
  · intro hexec
    simp [RecoveryByCustodialGuardian.createAndExecuteRecoveryRequest, hexec]
  · intro hexec
    simp [RecoveryByCustodialGuardian.createAndExecuteRecoveryRequest, hexec]
  · intro result hok
    unfold RecoveryByCustodialGuardian.createAndExecuteRecoveryRequest at hok
    cases hexec : executeResult recoveryRequest.id with
    | error e => simp [hexec] at hok
    | ok success =>
        cases success with
        | false => simp [hexec] at hok
        | true =>
            simp [hexec] at hok
            exact ⟨hok.symm, rfl⟩

/-- Witness for C4 at concrete inputs. -/
theorem createAndExecuteFailsLoudly_witness :
    (RecoveryByCustodialGuardian.createAndExecuteRecoveryRequest
        (.ok sampleNetworkConfig) (.ok (sampleRequest .PENDING))
        (fun _ => .ok true)
      = .ok (sampleRequest .PENDING))
    ∧ (RecoveryByCustodialGuardian.createAndExecuteRecoveryRequest
        (.ok sampleNetworkConfig) (.ok (sampleRequest .PENDING))
        (fun _ => .ok false)
      = .error { code := .BAD_DATA, message := "executeRecoveryRequest failed" }) :=
  ⟨(createAndExecuteFailsLoudly_spec sampleNetworkConfig (sampleRequest .PENDING)
      (fun _ => .ok true)).1 rfl,
   (createAndExecuteFailsLoudly_spec sampleNetworkConfig (sampleRequest .PENDING)
      (fun _ => .ok false)).2.1 rfl⟩

/-- A list of distinct elements all contained in another list is at most as
long as that list. -/
theorem nodup_subset_length_le {l l2 : List String} (h : l.Nodup)
    (hs : ∀ x ∈ l, x ∈ l2) : l.length ≤ l2.length := by
  calc l.length = l.toFinset.card := (List.toFinset_card_of_nodup h).symm
    _ ≤ l2.toFinset.card := by
        apply Finset.card_le_card
        intro x hx
        simp only [List.mem_toFinset] at hx ⊢
        exact hs x hx
    _ ≤ l2.length := l2.toFinset_card_le

/-- C9 (implicit): `submitCustodialGuardianSignatureChallenge` performs no
response-shape validation — for every parsed authority reply `r` it returns
exactly the object with `success = r.success`,
`custodianGuardianAddress = r.signer` and
`custodianGuardianSignature = r.signature`; it never raises an error of its
own (in particular no `BAD_DATA`), it propagates a transport failure
unchanged, and when `r` lacks a `success` field the caller receives an
object whose `success` field is `undefined`. -/
theorem submitChallengeForwardsReply_spec (r : JsonValue) (e : JsRuntimeFailure)
    (fields : JsonFields) :
    (RecoveryByCustodialGuardian.submitCustodialGuardianSignatureChallenge (.ok r)
      = .ok { success := r.propOf "success"
              custodianGuardianAddress := r.propOf "signer"
              custodianGuardianSignature := r.propOf "signature" })
    ∧ (¬ ∃ err, RecoveryByCustodialGuardian.submitCustodialGuardianSignatureChallenge
        (.ok r) = .error err)
    ∧ (fields.hasField "success" = false →
        ∃ out, RecoveryByCustodialGuardian.submitCustodialGuardianSignatureChallenge
            (.ok (.obj fields)) = .ok out ∧ out.success = .undefined)
    ∧ (RecoveryByCustodialGuardian.submitCustodialGuardianSignatureChallenge
        (.error e) = .error e) := by
  refine ⟨rfl, ?_, ?_, rfl⟩
  · rintro ⟨err, herr⟩
    simp [RecoveryByCustodialGuardian.submitCustodialGuardianSignatureChallenge] at herr
  · intro hnf
    refine ⟨_, rfl, ?_⟩
    simp only [JsonValue.propOf]
    cases hl : fields.lookupField "success" with
    | none => rfl
    | some v =>
        exfalso
        rw [JsonFields.hasField, hl] at hnf
        cases hnf

/-- A sample signature-submit reply that carries only a boolean success. -/
def sampleSubmitReplyNoSignature : JsonValue :=
  .obj (.cons "success" (.bool true) .nil)

/-- Witness for C9 at concrete inputs. -/
theorem submitChallengeForwardsReply_witness :
    (RecoveryByCustodialGuardian.submitCustodialGuardianSignatureChallenge
        (.ok sampleSubmitReplyNoSignature)
      = .ok { success := .bool true
              custodianGuardianAddress := .undefined
              custodianGuardianSignature := .undefined })
    ∧ (∃ out, RecoveryByCustodialGuardian.submitCustodialGuardianSignatureChallenge
        (.ok (.obj .nil)) = .ok out ∧ out.success = .undefined) :=
  ⟨(submitChallengeForwardsReply_spec sampleSubmitReplyNoSignature
      (.typeError "unused") .nil).1,
   (submitChallengeForwardsReply_spec (.obj .nil)
      (.typeError "unused") .nil).2.2.1 rfl⟩

/-- C3: Verify-all-channels signature release — composing the client's
`submitCustodialGuardianSignatureChallenge` with the authority's
verification step (modelled from the spec): for a well-formed
`SignatureRequest` state with `requiredVerifications = k`, no reply carries
a populated `(custodianGuardianAddress, custodianGuardianSignature)` pair
while fewer than `k` distinct channels are verified; the pair — exactly one,
with the custodial signer's address and signature — is released precisely in
the response to the `k`-th distinct successful channel verification, and
until then `success` reflects only the individual channel's outcome with the
signature fields absent. -/
theorem custodialSignatureRelease_spec
    (st : SignatureRequestState) (challengeId code : String)
    (hk : st.requiredVerifications = st.auths.length)
    (hnodupVerified : st.verified.Nodup)
    (hsub : ∀ c ∈ st.verified, c ∈ st.auths.map (fun a => a.challengeId)) :
    ∃ out,
      RecoveryByCustodialGuardian.submitCustodialGuardianSignatureChallenge
          (.ok (authoritySubmitSignatureChallenge st challengeId code).2)
        = .ok out
      ∧ out.success = .bool (challengeAccepted st challengeId code)
      ∧ ((authoritySubmitSignatureChallenge st challengeId code).1.verified.length
            < st.requiredVerifications →
          out.custodianGuardianAddress = .undefined
          ∧ out.custodianGuardianSignature = .undefined)
      ∧ (out.custodianGuardianSignature ≠ .undefined
          ∨ out.custodianGuardianAddress ≠ .undefined →
          challengeAccepted st challengeId code = true
          ∧ (authoritySubmitSignatureChallenge st challengeId code).1.verified.length
              = st.requiredVerifications
          ∧ out = { success := .bool true
                    custodianGuardianAddress := .str st.signerAddress
                    custodianGuardianSignature := .str st.signerSignature })
      ∧ (challengeAccepted st challengeId code = true →
          st.verified.length + 1 = st.requiredVerifications →
          out = { success := .bool true
                  custodianGuardianAddress := .str st.signerAddress
                  custodianGuardianSignature := .str st.signerSignature })
      ∧ (authoritySubmitSignatureChallenge st challengeId code).1.verified.Nodup
      ∧ (∀ c ∈ (authoritySubmitSignatureChallenge st challengeId code).1.verified,
          c ∈ st.auths.map (fun a => a.challengeId))
      ∧ (authoritySubmitSignatureChallenge st challengeId code).1.verified.length
          ≤ st.requiredVerifications := by
  by_cases hacc : challengeAccepted st challengeId code
  · have hmem : challengeId ∈ st.auths.map (fun a => a.challengeId) := by
      unfold challengeAccepted at hacc
      cases hfind : st.auths.find? (fun a => a.challengeId == challengeId) with
      | none => rw [hfind] at hacc; cases hacc
      | some a =>
          have := List.find?_some hfind
          have hmem2 := List.mem_of_find?_eq_some hfind
          simp only [beq_iff_eq] at this
          subst this
          exact List.mem_map_of_mem (fun a => a.challengeId) hmem2
    have hfresh : challengeId ∉ st.verified := by
      unfold challengeAccepted at hacc
      cases hfind : st.auths.find? (fun a => a.challengeId == challengeId) with
      | none => rw [hfind] at hacc; cases hacc
      | some a =>
          rw [hfind] at hacc
          cases hcontains : st.verified.contains challengeId with
          | false => simpa using hcontains
          | true => rw [hcontains] at hacc; simp at hacc
    have hnodup2 : (challengeId :: st.verified).Nodup := by
      exact List.nodup_cons.mpr ⟨hfresh, hnodupVerified⟩
    have hsub2 : ∀ c ∈ challengeId :: st.verified,
        c ∈ st.auths.map (fun a => a.challengeId) := by
      intro c hc
      rcases List.mem_cons.mp hc with hc | hc
      · exact hc ▸ hmem
      · exact hsub c hc
    have hle : (challengeId :: st.verified).length ≤ st.requiredVerifications := by
      rw [hk]
      have := nodup_subset_length_le hnodup2 hsub2
      simpa using this
    unfold authoritySubmitSignatureChallenge
    rw [if_pos hacc]
    by_cases hfull : (challengeId :: st.verified).length = st.requiredVerifications
    · have hfullb : ((challengeId :: st.verified).length
          == st.requiredVerifications) = true := by simpa using hfull
      simp only [hfullb, if_true]
      refine ⟨_, rfl, by simp [hacc, JsonValue.propOf, JsonFields.lookupField], ?_, ?_, ?_, ?_, ?_, ?_⟩
      · intro hlt
        exfalso
        simp only [hfull] at hlt
        omega
      · intro _
        exact ⟨hacc, by simpa using hfull, rfl⟩
      · intro _ _
        rfl
      · simpa using hnodup2
      · simpa using hsub2
      · simpa using hle
    · have hfullb : ((challengeId :: st.verified).length
          == st.requiredVerifications) = false := by simpa using hfull
      simp only [hfullb, Bool.false_eq_true, if_false]
      refine ⟨_, rfl, by simp [hacc, JsonValue.propOf, JsonFields.lookupField], ?_, ?_, ?_, ?_, ?_, ?_⟩
      · intro _
        exact ⟨rfl, rfl⟩
      · intro habs
        exfalso
        rcases habs with habs | habs <;> simp
          [RecoveryByCustodialGuardian.submitCustodialGuardianSignatureChallenge,
           JsonValue.propOf, JsonFields.lookupField] at habs
      · intro _ hcount
        exfalso
        apply hfull
        simpa using hcount
      · simpa using hnodup2
      · simpa using hsub2
      · simpa using hle
  · have haccb : challengeAccepted st challengeId code = false := by
      simpa using hacc
    unfold authoritySubmitSignatureChallenge
    rw [if_neg (by simp [haccb])]
    refine ⟨_, rfl, by simp [haccb, JsonValue.propOf, JsonFields.lookupField], ?_, ?_, ?_, ?_, ?_, ?_⟩
    · intro _
      exact ⟨rfl, rfl⟩
    · intro habs
      exfalso
      rcases habs with habs | habs <;> simp
        [RecoveryByCustodialGuardian.submitCustodialGuardianSignatureChallenge,
         JsonValue.propOf, JsonFields.lookupField] at habs
    · intro hc
      rw [haccb] at hc
      cases hc
    · exact hnodupVerified
    · exact hsub
    · rw [hk]
      simpa using nodup_subset_length_le hnodupVerified hsub

/-- A custodial signature request with two registered channels of which the
email one is already verified. -/
def sampleSignatureRequestState : SignatureRequestState :=
  { requiredVerifications := 2
    auths := [{ challengeId := "ch-email", code := "111111" },
              { challengeId := "ch-sms", code := "222222" }]
    verified := ["ch-email"]
    signerAddress := "0x3333333333333333333333333333333333333333"
    signerSignature := "0xcustodialsig" }

/-- Witness for C3 at concrete inputs: the second (last) channel's
successful verification releases the pair, and a first verification alone
would not have. -/
theorem custodialSignatureRelease_witness :
    RecoveryByCustodialGuardian.submitCustodialGuardianSignatureChallenge
        (.ok (authoritySubmitSignatureChallenge
          sampleSignatureRequestState "ch-sms" "222222").2)
      = .ok { success := .bool true
              custodianGuardianAddress :=
                .str "0x3333333333333333333333333333333333333333"
              custodianGuardianSignature := .str "0xcustodialsig" } := by
  obtain ⟨out, hout, hsucc, hbefore, hpop, hrelease, hrest⟩ :=
    custodialSignatureRelease_spec sampleSignatureRequestState "ch-sms" "222222"
      (by decide) (by decide) (by decide)
  rw [hout, hrelease (by decide) (by decide)]
  rfl

/-- No inherited `Object.prototype` property name is an own key of
`HttpErrorCodeDict`. -/
theorem objectPrototypeKeys_not_own (s : String)
    (hs : s ∈ objectPrototypeKeys) : httpErrorCodeDict s = none := by
  fin_cases hs <;> rfl

/-- C6 counterexample: a reply whose `code` stringifies to the inherited
`Object.prototype` property name `"toString"` passes the JavaScript
`codeString in HttpErrorCodeDict` check, so `sendHttpRequest` throws a
`SafeRecoveryServiceSdkError` whose `code` field is the inherited
`Object.prototype.toString` member — not the `UNKNOWN_ERROR` the claim
asserts for every code outside the ten known keys. -/
theorem errorCodeMappingInherited_counterexample :
    sendHttpRequest (.ok (.obj (.cons "code" (.str "toString")
        (.cons "message" (.str "m") .nil))))
      = .error (.sdkErrorInheritedCode "toString" "m")
    ∧ ((.error (.sdkErrorInheritedCode "toString" "m")
          : Except JsRuntimeFailure JsonValue)
        ≠ .error (.sdkError { code := .UNKNOWN_ERROR, message := "m" })) := by
  constructor
  · simp [sendHttpRequest, handleParsedResponse, JsonFields.lookupField,
      jsToString, errorMessageOf, httpErrorCodeDictHasKey, httpErrorCodeDict,
      objectPrototypeKeys]
  · simp

/-- C6 (amended): Error-code mapping taxonomy — on a successful transport
round trip, a parsed reply containing a `code` field always makes
`sendHttpRequest` throw a `SafeRecoveryServiceSdkError` carrying the reply's
message and is never returned as a result: the thrown code is
`HttpErrorCodeDict[String(code)]` when the stringified code is one of the
ten known HTTP-derived keys, `UNKNOWN_ERROR` for any other code that is not
an inherited `Object.prototype` property name, and — because the
`codeString in HttpErrorCodeDict` check also finds inherited properties —
the inherited `Object.prototype` member itself (not a `BasicErrorCode`) when
the stringified code is such a property name. -/
theorem errorCodeMappingTaxonomy_amended (fields : JsonFields) (codeValue : JsonValue) :
    (fields.lookupField "code" = some codeValue →
      jsToString codeValue ∉ objectPrototypeKeys →
      sendHttpRequest (.ok (.obj fields))
        = .error (.sdkError
            { code := (httpErrorCodeDict (jsToString codeValue)).getD .UNKNOWN_ERROR
              message := errorMessageOf fields }))
    ∧ (fields.lookupField "code" = some codeValue →
        jsToString codeValue ∈ objectPrototypeKeys →
        sendHttpRequest (.ok (.obj fields))
          = .error (.sdkErrorInheritedCode (jsToString codeValue)
              (errorMessageOf fields)))
    ∧ (fields.hasField "code" = true →
        ∀ v, sendHttpRequest (.ok (.obj fields)) ≠ .ok v)
    ∧ httpErrorCodeDict "400" = some .HTTP_BAD_REQUEST
    ∧ httpErrorCodeDict "401" = some .HTTP_UNAUTHORIZED
    ∧ httpErrorCodeDict "403" = some .HTTP_FORBIDDEN
    ∧ httpErrorCodeDict "404" = some .HTTP_NOT_FOUND
    ∧ httpErrorCodeDict "409" = some .HTTP_CONFLICT
    ∧ httpErrorCodeDict "429" = some .HTTP_TOO_MANY_REQUESTS
    ∧ httpErrorCodeDict "500" = some .HTTP_INTERNAL_ERROR
    ∧ httpErrorCodeDict "502" = some .HTTP_BAD_GATEWAY
    ∧ httpErrorCodeDict "503" = some .HTTP_SERVICE_UNAVAILABLE
    ∧ httpErrorCodeDict "504" = some .HTTP_GATEWAY_TIMEOUT
    ∧ (∀ s, s ∉ ["400", "401", "403", "404", "409", "429",
                 "500", "502", "503", "504"] →
        httpErrorCodeDict s = none)
    ∧ (∀ s, s ∈ objectPrototypeKeys → httpErrorCodeDictHasKey s = true) := by
  have hown : ∀ c, fields.lookupField "code" = some c →
      jsToString c ∉ objectPrototypeKeys →
      sendHttpRequest (.ok (.obj fields))
        = .error (.sdkError
            { code := (httpErrorCodeDict (jsToString c)).getD .UNKNOWN_ERROR
              message := errorMessageOf fields }) := by
    intro c h hnp
    simp only [sendHttpRequest, handleParsedResponse]
    rw [h]
    cases hd : httpErrorCodeDict (jsToString c) with
    | none =>
        have hk : httpErrorCodeDictHasKey (jsToString c) = false := by
          simp [httpErrorCodeDictHasKey, hd, hnp]
        simp [hk, hd]
    | some k =>
        have hk : httpErrorCodeDictHasKey (jsToString c) = true := by
          simp [httpErrorCodeDictHasKey, hd]
        simp [hk, hd]
  have hinh : ∀ c, fields.lookupField "code" = some c →
      jsToString c ∈ objectPrototypeKeys →
      sendHttpRequest (.ok (.obj fields))
        = .error (.sdkErrorInheritedCode (jsToString c) (errorMessageOf fields)) := by
    intro c h hp
    have hd := objectPrototypeKeys_not_own (jsToString c) hp
    have hk : httpErrorCodeDictHasKey (jsToString c) = true := by
      simp [httpErrorCodeDictHasKey, hp]
    simp only [sendHttpRequest, handleParsedResponse]
    rw [h]
    simp [hk, hd]
  refine ⟨hown codeValue, hinh codeValue, ?_,
    rfl, rfl, rfl, rfl, rfl, rfl, rfl, rfl, rfl, rfl, ?_, ?_⟩
  · intro hhas v
    rw [JsonFields.hasField] at hhas
    cases hl : fields.lookupField "code" with
    | none => rw [hl] at hhas; cases hhas
    | some c =>
        by_cases hp : jsToString c ∈ objectPrototypeKeys
        · rw [hinh c hl hp]
          exact fun habs => by cases habs
        · rw [hown c hl hp]
          exact fun habs => by cases habs
  · intro s hs
    simp only [List.mem_cons, List.not_mem_nil, or_false, not_or] at hs
    obtain ⟨h1, h2, h3, h4, h5, h6, h7, h8, h9, h10⟩ := hs
    simp [httpErrorCodeDict, h1, h2, h3, h4, h5, h6, h7, h8, h9, h10]
  · intro s hs
    simp [httpErrorCodeDictHasKey, hs]

/-- Witness for C6 (amended) at concrete replies: a known code (`404`), an
unknown code (`418`) and an inherited-key code (`"hasOwnProperty"`). -/
theorem errorCodeMappingTaxonomy_witness :
    (sendHttpRequest (.ok (.obj (.cons "code" (.num 404)
        (.cons "message" (.str "not found") .nil))))
      = .error (.sdkError { code := .HTTP_NOT_FOUND, message := "not found" }))
    ∧ (sendHttpRequest (.ok (.obj (.cons "code" (.num 418)
        (.cons "message" (.str "teapot") .nil))))
      = .error (.sdkError { code := .UNKNOWN_ERROR, message := "teapot" }))
    ∧ (sendHttpRequest (.ok (.obj (.cons "code" (.str "hasOwnProperty")
        (.cons "message" (.str "sneaky") .nil))))
      = .error (.sdkErrorInheritedCode "hasOwnProperty" "sneaky")) := by
  refine ⟨?_, ?_, ?_⟩
  · rw [(errorCodeMappingTaxonomy_amended
      (.cons "code" (.num 404) (.cons "message" (.str "not found") .nil))
      (.num 404)).1 rfl (by simp [jsToString, objectPrototypeKeys]; decide)]
    simp [jsToString, errorMessageOf, JsonFields.lookupField, httpErrorCodeDict]
    decide
  · rw [(errorCodeMappingTaxonomy_amended
      (.cons "code" (.num 418) (.cons "message" (.str "teapot") .nil))
      (.num 418)).1 rfl (by simp [jsToString, objectPrototypeKeys]; decide)]
    simp [jsToString, errorMessageOf, JsonFields.lookupField, httpErrorCodeDict]
    decide
  · rw [(errorCodeMappingTaxonomy_amended
      (.cons "code" (.str "hasOwnProperty") (.cons "message" (.str "sneaky") .nil))
      (.str "hasOwnProperty")).2.1 rfl
      (by simp [jsToString, objectPrototypeKeys])]
    simp [jsToString, errorMessageOf, JsonFields.lookupField]

/-- A sample `ethers.getAddress` behaviour: accepts exactly one well-formed
address, checksumming it, and throws on everything else. -/
def sampleGetAddress : String → Except String String := fun s =>
  if s == "0x1111111111111111111111111111111111111111" then
    .ok "0x1111111111111111111111111111111111111111"
  else
    .error ("invalid address (argument=\"address\", value=" ++ s ++ ")")

/-- A sample `ethers.randomBytes` behaviour. -/
def sampleRandomBytes : Nat → List Nat := fun n => List.range n

/-- Each byte renders as exactly two hexadecimal characters. -/
theorem byteToHexPair_length (b : Nat) : (byteToHexPair b).length = 2 := rfl

/-- Length of the hexlification: two characters plus two per byte. -/
theorem hexlify_length (bytes : List Nat) :
    (hexlify bytes).length = 2 + 2 * bytes.length := by
  have hcat : ∀ l : List Nat, (concatStrings (l.map byteToHexPair)).length
      = 2 * l.length := by
    intro l
    induction l with
    | nil => rfl
    | cons b rest ih =>
        simp only [List.map_cons, concatStrings, String.length_append,
          byteToHexPair_length, ih, List.length_cons]
        ring
  rw [hexlify, String.length_append, hcat]
  rfl

/-- C7: Typed-statement builder — `generateSIWEMessage` throws a
`SafeRecoveryServiceSdkError` with code `SIWE_ERROR` when the subject
address is not well-formed (`ethers.getAddress` rejects it), and otherwise
returns a prepared SIWE message whose embedded nonce is the hexlification of
24 freshly generated random bytes (a 50-character `"0x"`-prefixed string)
and which embeds the issuance timestamp, the given statement, domain, uri
and chainId, each on its own message line. -/
theorem siweStatementBuilder_spec
    (getAddress : String → Except String String)
    (randomBytes : Nat → List Nat) (nowIsoString : String)
    (accountAddress statement : String) (chainId : Nat)
    (siweDomain siweUri : String) :
    (∀ message, getAddress accountAddress = .error message →
      generateSIWEMessage getAddress randomBytes nowIsoString
          accountAddress statement chainId siweDomain siweUri
        = .error { code := .SIWE_ERROR, message := message })
    ∧ (∀ address, getAddress accountAddress = .ok address →
        (randomBytes 24).length = 24 →
        ∃ fields,
          generateSIWEMessage getAddress randomBytes nowIsoString
              accountAddress statement chainId siweDomain siweUri
            = .ok (prepareMessage fields)
          ∧ fields.nonce = hexlify (randomBytes 24)
          ∧ fields.nonce.length = 50
          ∧ (∃ t, fields.nonce = "0x" ++ t)
          ∧ fields.issuedAt = nowIsoString
          ∧ fields.statement = statement
          ∧ fields.domain = siweDomain
          ∧ fields.uri = siweUri
          ∧ fields.chainId = chainId
          ∧ fields.address = address
          ∧ fields.version = "1"
          ∧ ("Nonce: " ++ hexlify (randomBytes 24)) ∈ siweMessageLines fields
          ∧ ("Issued At: " ++ nowIsoString) ∈ siweMessageLines fields
          ∧ statement ∈ siweMessageLines fields
          ∧ ("URI: " ++ siweUri) ∈ siweMessageLines fields
          ∧ ("Chain ID: " ++ toString chainId) ∈ siweMessageLines fields
          ∧ (siweDomain ++ " wants you to sign in with your Ethereum account:")
              ∈ siweMessageLines fields) := by
  constructor
  · intro message herr
    simp [generateSIWEMessage, herr]
  · intro address hok hlen
    refine ⟨{ version := "1", address := address, domain := siweDomain,
              uri := siweUri, statement := statement, chainId := chainId,
              nonce := hexlify (randomBytes 24), issuedAt := nowIsoString },
            ?_, rfl, ?_, ?_, rfl, rfl, rfl, rfl, rfl, rfl, rfl,
            ?_, ?_, ?_, ?_, ?_, ?_⟩
    · simp [generateSIWEMessage, hok]
    · rw [hexlify_length (randomBytes 24), hlen]
    · exact ⟨concatStrings ((randomBytes 24).map byteToHexPair), rfl⟩
    · simp [siweMessageLines]
    · simp [siweMessageLines]
    · simp [siweMessageLines]
    · simp [siweMessageLines]
    · simp [siweMessageLines]
    · simp [siweMessageLines]

/-- Witness for C7 at concrete inputs: a malformed address is rejected with
`SIWE_ERROR`, and a well-formed one yields the prepared message with the
hexlified 24-byte nonce and the timestamp. -/
theorem siweStatementBuilder_witness :
    (generateSIWEMessage sampleGetAddress sampleRandomBytes
        "2024-01-01T00:00:00.000Z" "not-an-address"
        "I authorize" 1 "service://safe-recovery-service"
        "service://safe-recovery-service"
      = .error { code := .SIWE_ERROR,
                 message := "invalid address (argument=\"address\", value=not-an-address)" })
    ∧ (generateSIWEMessage sampleGetAddress sampleRandomBytes
        "2024-01-01T00:00:00.000Z" "0x1111111111111111111111111111111111111111"
        "I authorize" 1 "service://safe-recovery-service"
        "service://safe-recovery-service"
      = .ok (prepareMessage
          { version := "1"
            address := "0x1111111111111111111111111111111111111111"
            domain := "service://safe-recovery-service"
            uri := "service://safe-recovery-service"
            statement := "I authorize"
            chainId := 1
            nonce := hexlify (sampleRandomBytes 24)
            issuedAt := "2024-01-01T00:00:00.000Z" })) := by
  constructor
  · exact (siweStatementBuilder_spec sampleGetAddress sampleRandomBytes
      "2024-01-01T00:00:00.000Z" "not-an-address" "I authorize" 1
      "service://safe-recovery-service" "service://safe-recovery-service").1
      "invalid address (argument=\"address\", value=not-an-address)" (by rfl)
  · obtain ⟨fields, heq, hnonce, hlen50, hpre, hissued, hstmt, hdom, huri,
        hchain, haddr, hver, hrest⟩ :=
      (siweStatementBuilder_spec sampleGetAddress sampleRandomBytes
        "2024-01-01T00:00:00.000Z" "0x1111111111111111111111111111111111111111"
        "I authorize" 1 "service://safe-recovery-service"
        "service://safe-recovery-service").2
        "0x1111111111111111111111111111111111111111" (by rfl) (by simp [sampleRandomBytes])
    cases fields
    simp only at hnonce hissued hstmt hdom huri hchain haddr hver
    subst hnonce hissued hstmt hdom huri hchain haddr hver
    exact heq

/-! ## Serialization lemmas (claim C5) -/

mutual
/-- Serializing with the bigint replacer is serializing the payload with
every bigint already replaced by its hexadecimal string; the replaced
payload holds no bigint. -/
theorem replaceStringify_val : (v : JsonValue) →
    jsonStringify (replaceBigints v) = jsonStringifyWithBigintReplacer v
    ∧ containsBigint (replaceBigints v) = false
  | .undefined => by
      simp [replaceBigints, jsonStringify, jsonStringifyWithBigintReplacer, containsBigint]
  | .null => by
      simp [replaceBigints, jsonStringify, jsonStringifyWithBigintReplacer, containsBigint]
  | .bool b => by
      simp [replaceBigints, jsonStringify, jsonStringifyWithBigintReplacer, containsBigint]
  | .num n => by
      simp [replaceBigints, jsonStringify, jsonStringifyWithBigintReplacer, containsBigint]
  | .bigint n => by
      simp [replaceBigints, jsonStringify, jsonStringifyWithBigintReplacer, containsBigint]
  | .str s => by
      simp [replaceBigints, jsonStringify, jsonStringifyWithBigintReplacer, containsBigint]
  | .arr es => by
      have h := replaceStringify_list es
      simp [replaceBigints, jsonStringify, jsonStringifyWithBigintReplacer,
        containsBigint, h.1, h.2]
  | .obj fs => by
      have h := replaceStringify_fields fs
      simp [replaceBigints, jsonStringify, jsonStringifyWithBigintReplacer,
        containsBigint, h.1, h.2]

/-- `replaceStringify_val` over array elements. -/
theorem replaceStringify_list : (es : JsonList) →
    jsonStringifyList (replaceBigintsList es) = jsonStringifyReplList es
    ∧ containsBigintList (replaceBigintsList es) = false
  | .nil => by
      simp [replaceBigintsList, jsonStringifyList, jsonStringifyReplList, containsBigintList]
  | .cons hd t => by
      have hv := replaceStringify_val hd
      have ht := replaceStringify_list t
      cases hd <;>
        simp_all [replaceBigints, replaceBigintsList, jsonStringify,
          jsonStringifyWithBigintReplacer, jsonStringifyList, jsonStringifyReplList,
          containsBigint, containsBigintList]

/-- `replaceStringify_val` over object fields. -/
theorem replaceStringify_fields : (fs : JsonFields) →
    jsonStringifyFields (replaceBigintsFields fs) = jsonStringifyReplFields fs
    ∧ containsBigintFields (replaceBigintsFields fs) = false
  | .nil => by
      simp [replaceBigintsFields, jsonStringifyFields, jsonStringifyReplFields,
        containsBigintFields]
  | .cons k v t => by
      have hv := replaceStringify_val v
      have ht := replaceStringify_fields t
      cases v <;>
        simp_all [replaceBigints, replaceBigintsFields, jsonStringify,
          jsonStringifyWithBigintReplacer, jsonStringifyFields, jsonStringifyReplFields,
          containsBigint, containsBigintFields]
end

/-- C5 counterexample: a GET payload containing the bigint `10` goes on the
wire as the native decimal string `"10"` (via `URLSearchParams`), not as its
`"0x"`-prefixed hexadecimal form `"0xa"` — while the same payload POSTed is
hex-serialized. -/
theorem hexSerialization_counterexample :
    sendHttpRequestWire (.obj (.cons "nonce" (.bigint 10) .nil)) .get
      = .get [("nonce", "10")]
    ∧ bigintToHexQuantity 10 = "0xa"
    ∧ ("10" : String) ≠ "0xa"
    ∧ ("10" : String) = toString (10 : Int)
    ∧ sendHttpRequestWire (.obj (.cons "nonce" (.bigint 10) .nil)) .post
      = .post (some ("\x7b\"nonce\":\"0xa\"\x7d")) := by
  refine ⟨?_, ?_, ?_, ?_, ?_⟩
  · simp [sendHttpRequestWire, urlSearchParamsOf, urlSearchParamsOfFields, jsToString]
    decide
  · decide
  · decide
  · decide
  · simp [sendHttpRequestWire, jsonStringifyWithBigintReplacer,
      jsonStringifyReplFields, bigintToHexQuantity, natToHexDigits, jsonQuoteString]
    decide

/-- C5 (amended): Hex serialization of large integers — in every POST
payload sent by `sendHttpRequest`, every bigint value is serialized on the
wire as a `"0x"`-prefixed hexadecimal string rather than in native numeric
form (the raw body equals the plain JSON serialization of the payload with
each bigint replaced by its `"0x"`-hex string, and no bigint survives the
replacement); in GET requests the payload bypasses that replacer and is
serialized by `URLSearchParams` with JavaScript `String()` conversion, which
renders a bigint in native decimal form. -/
theorem hexSerialization_amended :
    (∀ body : JsonValue,
      sendHttpRequestWire body .post = .post (jsonStringify (replaceBigints body)))
    ∧ (∀ n : Int, replaceBigints (.bigint n) = .str (bigintToHexQuantity n))
    ∧ (∀ n : Int, ∃ t, bigintToHexQuantity n = "0x" ++ t)
    ∧ (∀ body : JsonValue, containsBigint (replaceBigints body) = false)
    ∧ (∀ fs : JsonFields,
        sendHttpRequestWire (.obj fs) .get = .get (urlSearchParamsOfFields fs))
    ∧ (∀ k : String, ∀ n : Int, ∀ t : JsonFields,
        urlSearchParamsOfFields (.cons k (.bigint n) t)
          = (k, toString n) :: urlSearchParamsOfFields t) := by
  refine ⟨?_, ?_, ?_, ?_, ?_, ?_⟩
  · intro body
    rw [(replaceStringify_val body).1]
    rfl
  · intro n
    simp [replaceBigints]
  · intro n
    exact ⟨_, rfl⟩
  · intro body
    exact (replaceStringify_val body).2
  · intro fs
    rfl
  · intro k n t
    simp [urlSearchParamsOfFields, jsToString]

/-- C8: evaluation at the failing input — the reply `{}` (an object with no
`code` and no `registrations` field) passes `sendHttpRequest`'s embedded
error inspection untouched, and `getRegistrations` then raises an untyped
JavaScript `TypeError` (the `for…of` over the missing `registrations`
property), not a `SafeRecoveryServiceSdkError` of any code; by contrast a
present `registrations` array with a malformed element does produce the
intended `BAD_DATA` error. -/
theorem malformedReplyUntypedError_bug :
    sendHttpRequest (.ok (.obj .nil)) = .ok (.obj .nil)
    ∧ RecoveryByCustodialGuardian.getRegistrations "https://service.endpoint"
        (.obj .nil)
        = .error (.typeError "registrations is not iterable")
    ∧ (∀ e, RecoveryByCustodialGuardian.getRegistrations "https://service.endpoint"
        (.obj .nil) ≠ .error (.sdkError e))
    ∧ RecoveryByCustodialGuardian.getRegistrations "https://service.endpoint"
        (.obj (.cons "registrations" (.arr (.cons (.num 5) .nil)) .nil))
        = .error (.sdkError
            { code := .BAD_DATA,
              message := "https://service.endpoint/v1/auth/registrations failed" }) := by
  refine ⟨rfl, rfl, ?_, ?_⟩
  · intro e h
    rw [RecoveryByCustodialGuardian.getRegistrations] at h
    simp [JsonValue.propOf, JsonFields.lookupField] at h
  · rfl

end SafeRecoverySdk
